import Mathlib

/-!
Verification of the cost-estimation core of the WorkAssure cost dashboard
(src/aws-cost-breakdown.py). The function calc_costs is pure arithmetic on
four integer inputs; it is embedded here over the exact rationals, with the
two Python int() truncations modelled as truncation toward zero.
-/

set_option maxRecDepth 8000

/-- Truncation toward zero of a rational, the semantics of Python int()
applied to a number. -/
def pyInt (q : ℚ) : ℤ := if 0 ≤ q then ⌊q⌋ else -⌊-q⌋

/-! Pricing constants, lines 9 to 41 of src/aws-cost-breakdown.py, each
decimal literal written as the exact rational it denotes. -/

def LAMBDA_COST_PER_GB_SEC : ℚ := 133334 / 10000000000

def LAMBDA_COST_PER_REQUEST : ℚ := 2 / 10000000

def APIGW_COST_PER_REQUEST : ℚ := 1 / 1000000

def LAMBDA_FREE_REQUESTS : ℚ := 1000000

def LAMBDA_FREE_GB_SECONDS : ℚ := 400000

def RDS_INSTANCE_COST_PER_HOUR : ℚ := 16 / 1000

def RDS_STORAGE_COST_PER_GB_MONTH : ℚ := 115 / 1000

def RDS_STORAGE_GB : ℚ := 20

def RDS_MONTHLY_COST : ℚ :=
  (RDS_INSTANCE_COST_PER_HOUR * 730) + (RDS_STORAGE_GB * RDS_STORAGE_COST_PER_GB_MONTH)

def S3_STORAGE_COST_PER_GB_MONTH : ℚ := 23 / 1000

def S3_PUT_COST_PER_1000 : ℚ := 5 / 1000

def S3_GET_COST_PER_1000 : ℚ := 4 / 10000

def S3_FILE_SIZE_MB : ℚ := 5

def DATA_TRANSFER_OUT_COST_PER_GB : ℚ := 9 / 100

def DATA_TRANSFER_OUT_FREE_GB : ℚ := 1

def CROSS_AZ_COST_PER_GB : ℚ := 1 / 100

def AVG_RESPONSE_SIZE_BYTES : ℚ := 538

def AVG_DB_QUERY_KB : ℚ := 2

def AVG_DB_RESPONSE_KB : ℚ := 3

def CROSS_AZ_RATIO : ℚ := 5 / 10

def CLOUDWATCH_INGESTION_COST_PER_GB : ℚ := 25 / 100

def CLOUDWATCH_STORAGE_COST_PER_GB_MONTH : ℚ := 3 / 100

def LOG_RETENTION_DAYS : ℚ := 7

def AVG_LAMBDA_LOG_BYTES_PER_INVOCATION : ℚ := 3389

def AVG_APIGW_LOG_BYTES_PER_REQUEST : ℚ := 273

def MEMORY_MB : ℚ := 512

def DURATION_MS : ℚ := 229

/-- The record returned by calc_costs (the Python dict literal at lines
99 to 109 of src/aws-cost-breakdown.py), with its nine keys as fields. -/
structure CostBreakdown where
  invocations : ℤ
  sessions : ℤ
  lambda : ℚ
  apigw : ℚ
  rds : ℚ
  s3 : ℚ
  data_transfer : ℚ
  cloudwatch : ℚ
  total : ℚ
deriving DecidableEq

/-- Embedding of calc_costs, lines 44 to 109 of src/aws-cost-breakdown.py,
statement by statement. Python float arithmetic is modelled by exact
rational arithmetic; the two int() coercions by pyInt. -/
def calc_costs (company_users active_users sessions_per_day days : ℕ) : CostBreakdown :=
  let invoc_per_session : ℚ := 36 + (4 * (company_users : ℚ))
  let total_invocations : ℤ :=
    pyInt (invoc_per_session * active_users * sessions_per_day * days)
  let gb_seconds : ℚ := total_invocations * (MEMORY_MB / 1024) * (DURATION_MS / 1000)
  let lambda_compute : ℚ :=
    max 0 (gb_seconds - LAMBDA_FREE_GB_SECONDS) * LAMBDA_COST_PER_GB_SEC
  let lambda_requests : ℚ :=
    max 0 ((total_invocations : ℚ) - LAMBDA_FREE_REQUESTS) * LAMBDA_COST_PER_REQUEST
  let lambda_total : ℚ := lambda_compute + lambda_requests
  let apigw_total : ℚ := total_invocations * APIGW_COST_PER_REQUEST
  let rds_cost : ℚ := (RDS_MONTHLY_COST / 30) * days
  let total_sessions : ℕ := active_users * sessions_per_day * days
  let s3_put_cost : ℚ := total_sessions * (S3_PUT_COST_PER_1000 / 1000)
  let s3_get_cost : ℚ := total_sessions * (S3_GET_COST_PER_1000 / 1000)
  let s3_storage_gb : ℚ := (total_sessions * S3_FILE_SIZE_MB) / 1024
  let s3_storage_cost : ℚ := s3_storage_gb * S3_STORAGE_COST_PER_GB_MONTH * ((days : ℚ) / 30)
  let s3_total : ℚ := s3_put_cost + s3_get_cost + s3_storage_cost
  let apigw_out_gb : ℚ := (total_invocations * AVG_RESPONSE_SIZE_BYTES) / (1024 ^ 3)
  let apigw_out_billable_gb : ℚ :=
    max 0 (apigw_out_gb - (DATA_TRANSFER_OUT_FREE_GB * ((days : ℚ) / 30)))
  let apigw_transfer_cost : ℚ := apigw_out_billable_gb * DATA_TRANSFER_OUT_COST_PER_GB
  let cross_az_invocations : ℚ := total_invocations * CROSS_AZ_RATIO
  let db_query_gb : ℚ := (cross_az_invocations * AVG_DB_QUERY_KB) / (1024 ^ 2)
  let db_response_gb : ℚ := (cross_az_invocations * AVG_DB_RESPONSE_KB) / (1024 ^ 2)
  let cross_az_cost : ℚ := (db_query_gb + db_response_gb) * CROSS_AZ_COST_PER_GB
  let data_transfer_total : ℚ := apigw_transfer_cost + cross_az_cost
  let lambda_log_bytes : ℚ := total_invocations * AVG_LAMBDA_LOG_BYTES_PER_INVOCATION
  let apigw_log_bytes : ℚ := total_invocations * AVG_APIGW_LOG_BYTES_PER_REQUEST
  let total_log_gb : ℚ := (lambda_log_bytes + apigw_log_bytes) / (1024 ^ 3)
  let cloudwatch_ingestion : ℚ := total_log_gb * CLOUDWATCH_INGESTION_COST_PER_GB
  let cloudwatch_storage : ℚ :=
    total_log_gb * CLOUDWATCH_STORAGE_COST_PER_GB_MONTH * (LOG_RETENTION_DAYS / 30)
  let cloudwatch_total : ℚ := cloudwatch_ingestion + cloudwatch_storage
  let total : ℚ :=
    lambda_total + apigw_total + rds_cost + s3_total + data_transfer_total + cloudwatch_total
  { invocations := total_invocations
    sessions := (total_sessions : ℤ)
    lambda := lambda_total
    apigw := apigw_total
    rds := rds_cost
    s3 := s3_total
    data_transfer := data_transfer_total
    cloudwatch := cloudwatch_total
    total := total }

/-- Division that signals failure on a zero divisor, as Python float
division raises ZeroDivisionError. -/
def qdiv (x y : ℚ) : Option ℚ := if y = 0 then none else some (x / y)

/-- The calc_costs pipeline with every division routed through qdiv, so
that a division by zero would abort with none. Used to show that no error
branch of the arithmetic is reachable. -/
def calc_costs_checked (company_users active_users sessions_per_day days : ℕ) :
    Option CostBreakdown := do
  let invoc_per_session : ℚ := 36 + (4 * (company_users : ℚ))
  let total_invocations : ℤ :=
    pyInt (invoc_per_session * active_users * sessions_per_day * days)
  let mem_gb ← qdiv MEMORY_MB 1024
  let dur_sec ← qdiv DURATION_MS 1000
  let gb_seconds : ℚ := total_invocations * mem_gb * dur_sec
  let lambda_compute : ℚ :=
    max 0 (gb_seconds - LAMBDA_FREE_GB_SECONDS) * LAMBDA_COST_PER_GB_SEC
  let lambda_requests : ℚ :=
    max 0 ((total_invocations : ℚ) - LAMBDA_FREE_REQUESTS) * LAMBDA_COST_PER_REQUEST
  let lambda_total : ℚ := lambda_compute + lambda_requests
  let apigw_total : ℚ := total_invocations * APIGW_COST_PER_REQUEST
  let rds_monthly_over_30 ← qdiv RDS_MONTHLY_COST 30
  let rds_cost : ℚ := rds_monthly_over_30 * days
  let total_sessions : ℕ := active_users * sessions_per_day * days
  let put_rate ← qdiv S3_PUT_COST_PER_1000 1000
  let s3_put_cost : ℚ := total_sessions * put_rate
  let get_rate ← qdiv S3_GET_COST_PER_1000 1000
  let s3_get_cost : ℚ := total_sessions * get_rate
  let s3_storage_gb ← qdiv (total_sessions * S3_FILE_SIZE_MB) 1024
  let days_frac ← qdiv (days : ℚ) 30
  let s3_storage_cost : ℚ := s3_storage_gb * S3_STORAGE_COST_PER_GB_MONTH * days_frac
  let s3_total : ℚ := s3_put_cost + s3_get_cost + s3_storage_cost
  let apigw_out_gb ← qdiv (total_invocations * AVG_RESPONSE_SIZE_BYTES) (1024 ^ 3)
  let free_frac ← qdiv (days : ℚ) 30
  let apigw_out_billable_gb : ℚ :=
    max 0 (apigw_out_gb - (DATA_TRANSFER_OUT_FREE_GB * free_frac))
  let apigw_transfer_cost : ℚ := apigw_out_billable_gb * DATA_TRANSFER_OUT_COST_PER_GB
  let cross_az_invocations : ℚ := total_invocations * CROSS_AZ_RATIO
  let db_query_gb ← qdiv (cross_az_invocations * AVG_DB_QUERY_KB) (1024 ^ 2)
  let db_response_gb ← qdiv (cross_az_invocations * AVG_DB_RESPONSE_KB) (1024 ^ 2)
  let cross_az_cost : ℚ := (db_query_gb + db_response_gb) * CROSS_AZ_COST_PER_GB
  let data_transfer_total : ℚ := apigw_transfer_cost + cross_az_cost
  let lambda_log_bytes : ℚ := total_invocations * AVG_LAMBDA_LOG_BYTES_PER_INVOCATION
  let apigw_log_bytes : ℚ := total_invocations * AVG_APIGW_LOG_BYTES_PER_REQUEST
  let total_log_gb ← qdiv (lambda_log_bytes + apigw_log_bytes) (1024 ^ 3)
  let cloudwatch_ingestion : ℚ := total_log_gb * CLOUDWATCH_INGESTION_COST_PER_GB
  let retention_frac ← qdiv LOG_RETENTION_DAYS 30
  let cloudwatch_storage : ℚ :=
    total_log_gb * CLOUDWATCH_STORAGE_COST_PER_GB_MONTH * retention_frac
  let cloudwatch_total : ℚ := cloudwatch_ingestion + cloudwatch_storage
  let total : ℚ :=
    lambda_total + apigw_total + rds_cost + s3_total + data_transfer_total + cloudwatch_total
  return { invocations := total_invocations
           sessions := (total_sessions : ℤ)
           lambda := lambda_total
           apigw := apigw_total
           rds := rds_cost
           s3 := s3_total
           data_transfer := data_transfer_total
           cloudwatch := cloudwatch_total
           total := total }

/-- pyInt agrees with the identity on (casts of) natural numbers. -/
lemma pyInt_natCast (n : ℕ) : pyInt (n : ℚ) = (n : ℤ) := by
  simp [pyInt, Nat.cast_nonneg]

/-- The number of invocations of the Python pipeline, as a natural number. -/
def invTotal (c a s d : ℕ) : ℕ := (36 + 4 * c) * a * s * d

/-- The number of sessions of the Python pipeline, as a natural number. -/
def sessTotal (a s d : ℕ) : ℕ := a * s * d

lemma calc_costs_invocations (c a s d : ℕ) :
    (calc_costs c a s d).invocations = (invTotal c a s d : ℤ) := by
  have h : (36 + (4 * (c : ℚ))) * a * s * d = ((invTotal c a s d : ℕ) : ℚ) := by
    simp [invTotal]
  simp only [calc_costs, h, pyInt_natCast]

lemma calc_costs_sessions (c a s d : ℕ) :
    (calc_costs c a s d).sessions = (sessTotal a s d : ℤ) := by
  simp only [calc_costs, sessTotal]

lemma pyInt_invTotal (c a s d : ℕ) :
    pyInt ((36 + (4 * (c : ℚ))) * a * s * d) = (invTotal c a s d : ℤ) := by
  have h : (36 + (4 * (c : ℚ))) * a * s * d = ((invTotal c a s d : ℕ) : ℚ) := by
    simp [invTotal]
  rw [h, pyInt_natCast]

lemma calc_costs_lambda (c a s d : ℕ) :
    (calc_costs c a s d).lambda =
      max 0 ((invTotal c a s d : ℚ) * (MEMORY_MB / 1024) * (DURATION_MS / 1000)
          - LAMBDA_FREE_GB_SECONDS) * LAMBDA_COST_PER_GB_SEC
        + max 0 ((invTotal c a s d : ℚ) - LAMBDA_FREE_REQUESTS) * LAMBDA_COST_PER_REQUEST := by
  simp only [calc_costs, pyInt_invTotal, Int.cast_natCast]

lemma calc_costs_apigw (c a s d : ℕ) :
    (calc_costs c a s d).apigw = (invTotal c a s d : ℚ) * APIGW_COST_PER_REQUEST := by
  simp only [calc_costs, pyInt_invTotal, Int.cast_natCast]

lemma calc_costs_rds (c a s d : ℕ) :
    (calc_costs c a s d).rds = (RDS_MONTHLY_COST / 30) * d := by
  simp only [calc_costs]

lemma calc_costs_s3 (c a s d : ℕ) :
    (calc_costs c a s d).s3 =
      (sessTotal a s d : ℚ) * (S3_PUT_COST_PER_1000 / 1000)
        + (sessTotal a s d : ℚ) * (S3_GET_COST_PER_1000 / 1000)
        + ((sessTotal a s d : ℚ) * S3_FILE_SIZE_MB) / 1024
            * S3_STORAGE_COST_PER_GB_MONTH * ((d : ℚ) / 30) := by
  simp only [calc_costs, sessTotal]

lemma calc_costs_data_transfer (c a s d : ℕ) :
    (calc_costs c a s d).data_transfer =
      max 0 (((invTotal c a s d : ℚ) * AVG_RESPONSE_SIZE_BYTES) / (1024 ^ 3)
          - (DATA_TRANSFER_OUT_FREE_GB * ((d : ℚ) / 30))) * DATA_TRANSFER_OUT_COST_PER_GB
        + (((invTotal c a s d : ℚ) * CROSS_AZ_RATIO * AVG_DB_QUERY_KB) / (1024 ^ 2)
            + ((invTotal c a s d : ℚ) * CROSS_AZ_RATIO * AVG_DB_RESPONSE_KB) / (1024 ^ 2))
            * CROSS_AZ_COST_PER_GB := by
  simp only [calc_costs, pyInt_invTotal, Int.cast_natCast]

lemma calc_costs_cloudwatch (c a s d : ℕ) :
    (calc_costs c a s d).cloudwatch =
      ((invTotal c a s d : ℚ) * AVG_LAMBDA_LOG_BYTES_PER_INVOCATION
          + (invTotal c a s d : ℚ) * AVG_APIGW_LOG_BYTES_PER_REQUEST) / (1024 ^ 3)
          * CLOUDWATCH_INGESTION_COST_PER_GB
        + ((invTotal c a s d : ℚ) * AVG_LAMBDA_LOG_BYTES_PER_INVOCATION
            + (invTotal c a s d : ℚ) * AVG_APIGW_LOG_BYTES_PER_REQUEST) / (1024 ^ 3)
            * CLOUDWATCH_STORAGE_COST_PER_GB_MONTH * (LOG_RETENTION_DAYS / 30) := by
  simp only [calc_costs, pyInt_invTotal, Int.cast_natCast]

lemma calc_costs_total_eq (c a s d : ℕ) :
    (calc_costs c a s d).total =
      (calc_costs c a s d).lambda + (calc_costs c a s d).apigw + (calc_costs c a s d).rds
        + (calc_costs c a s d).s3 + (calc_costs c a s d).data_transfer
        + (calc_costs c a s d).cloudwatch := rfl

lemma calc_costs_checked_eq (c a s d : ℕ) :
    calc_costs_checked c a s d = some (calc_costs c a s d) := by
  norm_num [calc_costs_checked, calc_costs, qdiv]

lemma lambda_nonneg (c a s d : ℕ) : 0 ≤ (calc_costs c a s d).lambda := by
  rw [calc_costs_lambda]
  refine add_nonneg (mul_nonneg (le_max_left _ _) ?_) (mul_nonneg (le_max_left _ _) ?_)
  · norm_num [LAMBDA_COST_PER_GB_SEC]
  · norm_num [LAMBDA_COST_PER_REQUEST]

lemma apigw_nonneg (c a s d : ℕ) : 0 ≤ (calc_costs c a s d).apigw := by
  rw [calc_costs_apigw]
  exact mul_nonneg (Nat.cast_nonneg _) (by norm_num [APIGW_COST_PER_REQUEST])

lemma rds_nonneg (c a s d : ℕ) : 0 ≤ (calc_costs c a s d).rds := by
  rw [calc_costs_rds]
  refine mul_nonneg ?_ (Nat.cast_nonneg _)
  norm_num [RDS_MONTHLY_COST, RDS_INSTANCE_COST_PER_HOUR, RDS_STORAGE_GB,
    RDS_STORAGE_COST_PER_GB_MONTH]

lemma s3_nonneg (c a s d : ℕ) : 0 ≤ (calc_costs c a s d).s3 := by
  rw [calc_costs_s3]
  simp only [S3_PUT_COST_PER_1000, S3_GET_COST_PER_1000, S3_FILE_SIZE_MB,
    S3_STORAGE_COST_PER_GB_MONTH]
  positivity

lemma data_transfer_nonneg (c a s d : ℕ) : 0 ≤ (calc_costs c a s d).data_transfer := by
  rw [calc_costs_data_transfer]
  refine add_nonneg (mul_nonneg (le_max_left _ _) ?_) ?_
  · norm_num [DATA_TRANSFER_OUT_COST_PER_GB]
  · simp only [ CROSS_AZ_RATIO, AVG_DB_QUERY_KB, AVG_DB_RESPONSE_KB, CROSS_AZ_COST_PER_GB]
    positivity

lemma cloudwatch_nonneg (c a s d : ℕ) : 0 ≤ (calc_costs c a s d).cloudwatch := by
  rw [calc_costs_cloudwatch]
  simp only [AVG_LAMBDA_LOG_BYTES_PER_INVOCATION, AVG_APIGW_LOG_BYTES_PER_REQUEST,
    CLOUDWATCH_INGESTION_COST_PER_GB, CLOUDWATCH_STORAGE_COST_PER_GB_MONTH,
    LOG_RETENTION_DAYS]
  positivity

lemma total_nonneg (c a s d : ℕ) : 0 ≤ (calc_costs c a s d).total := by
  rw [calc_costs_total_eq]
  have h1 := lambda_nonneg c a s d
  have h2 := apigw_nonneg c a s d
  have h3 := rds_nonneg c a s d
  have h4 := s3_nonneg c a s d
  have h5 := data_transfer_nonneg c a s d
  have h6 := cloudwatch_nonneg c a s d
  linarith

/-- Claim C1: for every input of four positive integers, the total field of
the record returned by calc_costs equals exactly the sum of the six cost
fields, with no rounding applied inside the estimator. -/
theorem C1_total_is_sum_of_costs (c a s d : ℕ)
    (hc : 1 ≤ c) (ha : 1 ≤ a) (hs : 1 ≤ s) (hd : 1 ≤ d) :
    (calc_costs c a s d).total =
      (calc_costs c a s d).lambda + (calc_costs c a s d).apigw + (calc_costs c a s d).rds
        + (calc_costs c a s d).s3 + (calc_costs c a s d).data_transfer
        + (calc_costs c a s d).cloudwatch :=
  calc_costs_total_eq c a s d

/-- Witness for C1 at the input (2, 1, 1, 1). -/
theorem C1_total_is_sum_of_costs_witness :
    (1 : ℕ) ≤ 2 ∧
      (calc_costs 2 1 1 1).total =
        (calc_costs 2 1 1 1).lambda + (calc_costs 2 1 1 1).apigw + (calc_costs 2 1 1 1).rds
          + (calc_costs 2 1 1 1).s3 + (calc_costs 2 1 1 1).data_transfer
          + (calc_costs 2 1 1 1).cloudwatch :=
  ⟨by decide, C1_total_is_sum_of_costs 2 1 1 1 (by decide) (by decide) (by decide) (by decide)⟩

/-- Claim C2: for every input of four positive integers, each of the six
cost fields and the total returned by calc_costs is greater than or equal
to zero; the free-tier clamps never allow a negative contribution. -/
theorem C2_cost_fields_nonneg (c a s d : ℕ)
    (hc : 1 ≤ c) (ha : 1 ≤ a) (hs : 1 ≤ s) (hd : 1 ≤ d) :
    0 ≤ (calc_costs c a s d).lambda ∧ 0 ≤ (calc_costs c a s d).apigw
      ∧ 0 ≤ (calc_costs c a s d).rds ∧ 0 ≤ (calc_costs c a s d).s3
      ∧ 0 ≤ (calc_costs c a s d).data_transfer ∧ 0 ≤ (calc_costs c a s d).cloudwatch
      ∧ 0 ≤ (calc_costs c a s d).total :=
  ⟨lambda_nonneg c a s d, apigw_nonneg c a s d, rds_nonneg c a s d, s3_nonneg c a s d,
    data_transfer_nonneg c a s d, cloudwatch_nonneg c a s d, total_nonneg c a s d⟩

/-- Witness for C2 at the input (2, 1, 1, 1). -/
theorem C2_cost_fields_nonneg_witness :
    (1 : ℕ) ≤ 2 ∧
      (0 ≤ (calc_costs 2 1 1 1).lambda ∧ 0 ≤ (calc_costs 2 1 1 1).apigw
        ∧ 0 ≤ (calc_costs 2 1 1 1).rds ∧ 0 ≤ (calc_costs 2 1 1 1).s3
        ∧ 0 ≤ (calc_costs 2 1 1 1).data_transfer ∧ 0 ≤ (calc_costs 2 1 1 1).cloudwatch
        ∧ 0 ≤ (calc_costs 2 1 1 1).total) :=
  ⟨by decide, C2_cost_fields_nonneg 2 1 1 1 (by decide) (by decide) (by decide) (by decide)⟩

/-- Claim C3: for every input of four positive integers, calc_costs sets
invocationsPerSession to 36 + 4 * companyUsers, totalInvocations to the
truncation toward zero of invocationsPerSession * activeUsers *
sessionsPerDay * days, and totalSessions to the truncation toward zero of
activeUsers * sessionsPerDay * days; on these integer products the two
truncations evaluate to the exact products. -/
theorem C3_usage_volumes (c a s d : ℕ)
    (hc : 1 ≤ c) (ha : 1 ≤ a) (hs : 1 ≤ s) (hd : 1 ≤ d) :
    (calc_costs c a s d).invocations = pyInt ((36 + 4 * (c : ℚ)) * a * s * d)
      ∧ (calc_costs c a s d).sessions = pyInt ((a : ℚ) * s * d)
      ∧ (calc_costs c a s d).invocations = (((36 + 4 * c) * a * s * d : ℕ) : ℤ)
      ∧ (calc_costs c a s d).sessions = ((a * s * d : ℕ) : ℤ) := by
  refine ⟨rfl, ?_, ?_, ?_⟩
  · have h : ((a : ℚ) * s * d) = ((a * s * d : ℕ) : ℚ) := by push_cast; ring
    rw [calc_costs_sessions, h, pyInt_natCast, sessTotal]
  · rw [calc_costs_invocations, invTotal]
  · rw [calc_costs_sessions, sessTotal]

/-- Witness for C3 at the input (2, 1, 1, 1). -/
theorem C3_usage_volumes_witness :
    (1 : ℕ) ≤ 2 ∧
      ((calc_costs 2 1 1 1).invocations = pyInt ((36 + 4 * ((2 : ℕ) : ℚ)) * (1 : ℕ) * (1 : ℕ) * (1 : ℕ))
        ∧ (calc_costs 2 1 1 1).sessions = pyInt (((1 : ℕ) : ℚ) * (1 : ℕ) * (1 : ℕ))
        ∧ (calc_costs 2 1 1 1).invocations = (((36 + 4 * 2) * 1 * 1 * 1 : ℕ) : ℤ)
        ∧ (calc_costs 2 1 1 1).sessions = ((1 * 1 * 1 : ℕ) : ℤ)) :=
  ⟨by decide, C3_usage_volumes 2 1 1 1 (by decide) (by decide) (by decide) (by decide)⟩

/-- Claim C4: for every input of four positive integers with
totalInvocations at most 1000000 and gbSeconds at most 400000, the lambda
cost returned by calc_costs is exactly zero: both clamps engage. -/
theorem C4_lambda_free_tier_zero (c a s d : ℕ)
    (hc : 1 ≤ c) (ha : 1 ≤ a) (hs : 1 ≤ s) (hd : 1 ≤ d)
    (hreq : (calc_costs c a s d).invocations ≤ 1000000)
    (hgb : ((calc_costs c a s d).invocations : ℚ) * (512 / 1024) * (229 / 1000) ≤ 400000) :
    (calc_costs c a s d).lambda = 0 := by
  rw [calc_costs_invocations] at hreq hgb
  have hq : ((invTotal c a s d : ℕ) : ℚ) ≤ 1000000 := by exact_mod_cast hreq
  have hg : ((invTotal c a s d : ℕ) : ℚ) * (512 / 1024) * (229 / 1000) ≤ 400000 := by
    push_cast at hgb
    exact hgb
  rw [calc_costs_lambda,
    max_eq_left (by rw [MEMORY_MB, DURATION_MS, LAMBDA_FREE_GB_SECONDS]; linarith),
    max_eq_left (by rw [LAMBDA_FREE_REQUESTS]; linarith)]
  ring

/-- Witness for C4 at the input (2, 1, 1, 1), whose 44 invocations are far
below both free-tier thresholds. -/
theorem C4_lambda_free_tier_zero_witness :
    (calc_costs 2 1 1 1).invocations ≤ 1000000
      ∧ ((calc_costs 2 1 1 1).invocations : ℚ) * (512 / 1024) * (229 / 1000) ≤ 400000
      ∧ (calc_costs 2 1 1 1).lambda = 0 := by
  have hreq : (calc_costs 2 1 1 1).invocations ≤ 1000000 := by
    rw [calc_costs_invocations]
    norm_num [invTotal]
  have hgb : ((calc_costs 2 1 1 1).invocations : ℚ) * (512 / 1024) * (229 / 1000) ≤ 400000 := by
    rw [calc_costs_invocations]
    norm_num [invTotal]
  exact ⟨hreq, hgb,
    C4_lambda_free_tier_zero 2 1 1 1 (by decide) (by decide) (by decide) (by decide) hreq hgb⟩

/-- Counterexample for C5: at the input (2, 1, 1, 1) the rds field equals
0.466 exactly, which is not approximately 0.4676: it differs from 0.4676 by
0.0016, far more than the precision suggested by four decimal places. -/
theorem C5_rds_decimal_counterexample :
    (calc_costs 2 1 1 1).rds = 466 / 1000
      ∧ ¬ |(calc_costs 2 1 1 1).rds - 4676 / 10000| ≤ 5 / 100000 := by
  have h : (calc_costs 2 1 1 1).rds = 466 / 1000 := by
    rw [calc_costs_rds]
    norm_num [RDS_MONTHLY_COST, RDS_INSTANCE_COST_PER_HOUR, RDS_STORAGE_GB,
      RDS_STORAGE_COST_PER_GB_MONTH]
  refine ⟨h, ?_⟩
  rw [h]
  have h2 : (466 / 1000 : ℚ) - 4676 / 10000 = -(16 / 10000) := by norm_num
  rw [h2, abs_neg, abs_of_nonneg (by norm_num)]
  norm_num

/-- Amended C5: at the input (2, 1, 1, 1), calc_costs returns
invocations 44, sessions 1, lambda cost 0, apigw cost 44 * 0.000001, and
rds cost ((0.016 * 730) + 20 * 0.115) / 30 * 1, which equals 0.466 exactly
(rather than approximately 0.4676). -/
theorem C5_scenarioA_amended :
    (calc_costs 2 1 1 1).invocations = 44
      ∧ (calc_costs 2 1 1 1).sessions = 1
      ∧ (calc_costs 2 1 1 1).lambda = 0
      ∧ (calc_costs 2 1 1 1).apigw = 44 * (1 / 1000000)
      ∧ (calc_costs 2 1 1 1).rds = ((16 / 1000 * 730) + 20 * (115 / 1000)) / 30 * 1
      ∧ (calc_costs 2 1 1 1).rds = 466 / 1000 := by
  refine ⟨?_, ?_, ?_, ?_, ?_, ?_⟩
  · rw [calc_costs_invocations]
    norm_num [invTotal]
  · rw [calc_costs_sessions]
    norm_num [sessTotal]
  · rw [calc_costs_lambda,
      max_eq_left (by norm_num [invTotal, MEMORY_MB, DURATION_MS, LAMBDA_FREE_GB_SECONDS]),
      max_eq_left (by norm_num [invTotal, LAMBDA_FREE_REQUESTS])]
    ring
  · rw [calc_costs_apigw]
    norm_num [invTotal, APIGW_COST_PER_REQUEST]
  · rw [calc_costs_rds]
    norm_num [RDS_MONTHLY_COST, RDS_INSTANCE_COST_PER_HOUR, RDS_STORAGE_GB,
      RDS_STORAGE_COST_PER_GB_MONTH]
  · rw [calc_costs_rds]
    norm_num [RDS_MONTHLY_COST, RDS_INSTANCE_COST_PER_HOUR, RDS_STORAGE_GB,
      RDS_STORAGE_COST_PER_GB_MONTH]

/-- Claim C6: with companyUsers, activeUsers and sessionsPerDay held fixed
and days doubled, the invocations, sessions, apigw cost and rds cost of
calc_costs each become exactly double their original values. -/
theorem C6_days_doubling (c a s d : ℕ)
    (hc : 1 ≤ c) (ha : 1 ≤ a) (hs : 1 ≤ s) (hd : 1 ≤ d) :
    (calc_costs c a s (2 * d)).invocations = 2 * (calc_costs c a s d).invocations
      ∧ (calc_costs c a s (2 * d)).sessions = 2 * (calc_costs c a s d).sessions
      ∧ (calc_costs c a s (2 * d)).apigw = 2 * (calc_costs c a s d).apigw
      ∧ (calc_costs c a s (2 * d)).rds = 2 * (calc_costs c a s d).rds := by
  have hT : invTotal c a s (2 * d) = 2 * invTotal c a s d := by
    unfold invTotal
    ring
  have hS : sessTotal a s (2 * d) = 2 * sessTotal a s d := by
    unfold sessTotal
    ring
  refine ⟨?_, ?_, ?_, ?_⟩
  · rw [calc_costs_invocations, calc_costs_invocations, hT]
    push_cast
    ring
  · rw [calc_costs_sessions, calc_costs_sessions, hS]
    push_cast
    ring
  · rw [calc_costs_apigw, calc_costs_apigw, hT]
    push_cast
    ring
  · rw [calc_costs_rds, calc_costs_rds]
    push_cast
    ring

/-- Witness for C6 at the input (2, 1, 1, 1) with days doubled to 2. -/
theorem C6_days_doubling_witness :
    (1 : ℕ) ≤ 2 ∧
      ((calc_costs 2 1 1 (2 * 1)).invocations = 2 * (calc_costs 2 1 1 1).invocations
        ∧ (calc_costs 2 1 1 (2 * 1)).sessions = 2 * (calc_costs 2 1 1 1).sessions
        ∧ (calc_costs 2 1 1 (2 * 1)).apigw = 2 * (calc_costs 2 1 1 1).apigw
        ∧ (calc_costs 2 1 1 (2 * 1)).rds = 2 * (calc_costs 2 1 1 1).rds) :=
  ⟨by decide, C6_days_doubling 2 1 1 1 (by decide) (by decide) (by decide) (by decide)⟩

/-- Claim C7: invocations and sessions are non-negative integers and are
monotonically non-decreasing in each of the four inputs; stated jointly,
which subsumes increasing any one input with the others held fixed. -/
theorem C7_volumes_monotone (c a s d c' a' s' d' : ℕ)
    (hc1 : 1 ≤ c) (ha1 : 1 ≤ a) (hs1 : 1 ≤ s) (hd1 : 1 ≤ d)
    (hc : c ≤ c') (ha : a ≤ a') (hs : s ≤ s') (hd : d ≤ d') :
    0 ≤ (calc_costs c a s d).invocations ∧ 0 ≤ (calc_costs c a s d).sessions
      ∧ (calc_costs c a s d).invocations ≤ (calc_costs c' a' s' d').invocations
      ∧ (calc_costs c a s d).sessions ≤ (calc_costs c' a' s' d').sessions := by
  rw [calc_costs_invocations, calc_costs_invocations, calc_costs_sessions,
    calc_costs_sessions]
  have hT : invTotal c a s d ≤ invTotal c' a' s' d' := by
    unfold invTotal
    exact Nat.mul_le_mul (Nat.mul_le_mul (Nat.mul_le_mul (by omega) ha) hs) hd
  have hS : sessTotal a s d ≤ sessTotal a' s' d' := by
    unfold sessTotal
    exact Nat.mul_le_mul (Nat.mul_le_mul ha hs) hd
  exact ⟨Int.natCast_nonneg _, Int.natCast_nonneg _, by exact_mod_cast hT,
    by exact_mod_cast hS⟩

/-- Witness for C7 from the input (1, 1, 1, 1) to the input (2, 2, 2, 2). -/
theorem C7_volumes_monotone_witness :
    (1 : ℕ) ≤ 2 ∧
      (0 ≤ (calc_costs 1 1 1 1).invocations ∧ 0 ≤ (calc_costs 1 1 1 1).sessions
        ∧ (calc_costs 1 1 1 1).invocations ≤ (calc_costs 2 2 2 2).invocations
        ∧ (calc_costs 1 1 1 1).sessions ≤ (calc_costs 2 2 2 2).sessions) :=
  ⟨by decide, C7_volumes_monotone 1 1 1 1 2 2 2 2 (by decide) (by decide) (by decide)
    (by decide) (by decide) (by decide) (by decide) (by decide)⟩

/-- Claim C8: for every input of four positive integers the estimator is
total: running the pipeline with every division checked for a zero divisor
reaches no error branch and returns exactly the record of calc_costs. -/
theorem C8_estimator_total (c a s d : ℕ)
    (hc : 1 ≤ c) (ha : 1 ≤ a) (hs : 1 ≤ s) (hd : 1 ≤ d) :
    calc_costs_checked c a s d = some (calc_costs c a s d) :=
  calc_costs_checked_eq c a s d

/-- Witness for C8 at the input (2, 1, 1, 1). -/
theorem C8_estimator_total_witness :
    (1 : ℕ) ≤ 2 ∧ calc_costs_checked 2 1 1 1 = some (calc_costs 2 1 1 1) :=
  ⟨by decide, C8_estimator_total 2 1 1 1 (by decide) (by decide) (by decide) (by decide)⟩

/-- Claim C9: calc_costs is deterministic: two calls with identical inputs
return identical records in every field; the result depends on nothing but
the four arguments. -/
theorem C9_deterministic (c a s d c' a' s' d' : ℕ)
    (hc : c = c') (ha : a = a') (hs : s = s') (hd : d = d') :
    calc_costs c a s d = calc_costs c' a' s' d' := by
  rw [hc, ha, hs, hd]

/-- Witness for C9 at two calls on the input (2, 1, 1, 1). -/
theorem C9_deterministic_witness :
    (2 : ℕ) = 2 ∧ calc_costs 2 1 1 1 = calc_costs 2 1 1 1 :=
  ⟨by decide, C9_deterministic 2 1 1 1 2 1 1 1 (by decide) (by decide) (by decide) (by decide)⟩

/-- Claim C10: for every input of four positive integers the total cost is
strictly positive, the rds cost equals ((0.016 * 730) + 20 * 0.115) / 30
times days, which is bounded below by that daily rate, and the total is at
least the rds cost, so a zero total is unreachable for valid inputs. -/
theorem C10_total_strictly_positive (c a s d : ℕ)
    (hc : 1 ≤ c) (ha : 1 ≤ a) (hs : 1 ≤ s) (hd : 1 ≤ d) :
    0 < (calc_costs c a s d).total
      ∧ (calc_costs c a s d).rds = ((16 / 1000 * 730) + 20 * (115 / 1000)) / 30 * d
      ∧ ((16 / 1000 * 730) + 20 * (115 / 1000)) / 30 ≤ (calc_costs c a s d).rds
      ∧ (calc_costs c a s d).rds ≤ (calc_costs c a s d).total := by
  have hrds : (calc_costs c a s d).rds = (233 / 500 : ℚ) * d := by
    rw [calc_costs_rds]
    norm_num [RDS_MONTHLY_COST, RDS_INSTANCE_COST_PER_HOUR, RDS_STORAGE_GB,
      RDS_STORAGE_COST_PER_GB_MONTH]
  have hd1 : (1 : ℚ) ≤ (d : ℚ) := by exact_mod_cast hd
  have hlow : (233 / 500 : ℚ) ≤ (calc_costs c a s d).rds := by
    rw [hrds]
    nlinarith
  have hsum := calc_costs_total_eq c a s d
  have h1 := lambda_nonneg c a s d
  have h2 := apigw_nonneg c a s d
  have h4 := s3_nonneg c a s d
  have h5 := data_transfer_nonneg c a s d
  have h6 := cloudwatch_nonneg c a s d
  have hfl : ((16 / 1000 * 730 : ℚ) + 20 * (115 / 1000)) / 30 = 233 / 500 := by norm_num
  refine ⟨by linarith, ?_, by rw [hfl]; exact hlow, by linarith⟩
  rw [hrds]
  norm_num

/-- Witness for C10 at the input (2, 1, 1, 1). -/
theorem C10_total_strictly_positive_witness :
    (1 : ℕ) ≤ 2 ∧
      (0 < (calc_costs 2 1 1 1).total
        ∧ (calc_costs 2 1 1 1).rds = ((16 / 1000 * 730) + 20 * (115 / 1000)) / 30 * 1
        ∧ ((16 / 1000 * 730) + 20 * (115 / 1000)) / 30 ≤ (calc_costs 2 1 1 1).rds
        ∧ (calc_costs 2 1 1 1).rds ≤ (calc_costs 2 1 1 1).total) :=
  ⟨by decide, C10_total_strictly_positive 2 1 1 1 (by decide) (by decide) (by decide)
    (by decide)⟩
